import Mathlib

/-!
A verification development for the CREATE-statement execution core of the
`db` package (`src/db/create.go`).  The three functions under `src/` are
embedded shallowly:

* `runCreate`   — the per-document lifecycle pipeline (lines 123–177);
* `executeCreate` — target resolution and fan-out over the WHAT clause
  (lines 29–90);
* `fetchCreate` — the nested-expression variant that installs the
  `$parent`/`$parents` variable frame before delegating (lines 92–121).

The collaborator methods the pipeline calls (`d.init`, `d.lock`, `d.setup`,
`d.merge`, `d.allow`, `d.storeIndex`, `d.storeThing`, `d.table`, `d.lives`,
`d.event`, `d.yield`) live in other files of the `db` package that are not
part of the sources; each is represented by an oracle field recording the
outcome it returns for the run under consideration, so every theorem below
quantifies over all possible collaborator behaviours.
-/

/-- A Go `interface{}` value as it appears in this code: strings, numbers,
booleans, nil, `[]interface{}` and `map[string]interface{}`. -/
inductive GoValue where
  | null : GoValue
  | bool (b : Bool) : GoValue
  | num (n : Int) : GoValue
  | str (s : String) : GoValue
  | arr (xs : List GoValue) : GoValue
  | obj (fields : List (String × GoValue)) : GoValue

/-- A Go `error` value as produced by this code: an ordinary error message,
the `ExistError` of line 142 (carrying the conflicting identifier `d.id`),
or the unsupported-CREATE-target error of line 52 (carrying the offending
evaluated value). -/
inductive GoErr where
  | err (msg : String) : GoErr
  | existError (exist : GoValue) : GoErr
  | unsupported (what : GoValue) : GoErr

/-- The lifecycle stages of the document pipeline, in the order the calls
appear in `runCreate` (lines 129–175). -/
inductive Stage where
  | Init | Locked | SetUp | ExistenceChecked | Merged | PermissionChecked
  | IndexStored | RecordStored | TableUpdated | LiveNotified | EventFired | Yielded
deriving DecidableEq

/-- The canonical stage order of the pipeline. -/
def canonicalStages : List Stage :=
  [.Init, .Locked, .SetUp, .ExistenceChecked, .Merged, .PermissionChecked,
   .IndexStored, .RecordStored, .TableUpdated, .LiveNotified, .EventFired, .Yielded]

/-- The `document` receiver of `runCreate` together with the outcomes its
stage methods return on this run.  The methods themselves (`d.init`,
`d.lock`, `d.setup`, `d.merge` applied to `stm.Data`, `d.allow`,
`d.storeIndex`, `d.storeThing`, `d.table`, `d.lives`, `d.event`, and
`d.yield` applied to `stm` and `stm.Echo`) are defined in other files of the
`db` package; here each is an oracle field, so `runCreate` below is exactly
the control flow of lines 123–177 over arbitrary collaborator behaviour.
`exi` is the value of `d.val.Exi()` after `d.setup` has loaded the stored
value, and `id` is `d.id`.  `allowOk`/`allowErr` are the two return values
of `d.allow`, and `yieldVal`/`yieldErr` the two return values of `d.yield`. -/
structure Document where
  id : GoValue
  initRes : Option GoErr
  lockRes : Option GoErr
  setupRes : Option GoErr
  exi : Bool
  mergeRes : Option GoErr
  allowOk : Bool
  allowErr : Option GoErr
  storeIndexRes : Option GoErr
  storeThingRes : Option GoErr
  tableRes : Option GoErr
  livesRes : Option GoErr
  eventRes : Option GoErr
  yieldVal : Option GoValue
  yieldErr : Option GoErr

/-- `runCreate` (lines 123–177): the early-return chain of the per-document
pipeline, instrumented with the list of stages that actually executed.  A
stage enters the trace when its call (or, for `ExistenceChecked`, the
`d.val.Exi()` test of line 141) runs, whether or not it succeeds.  The
second component is the `(interface{}, error)` pair the Go function
returns. -/
def runCreate (d : Document) : List Stage × (Option GoValue × Option GoErr) :=
  -- if err = d.init(ctx); err != nil { return nil, err }
  match d.initRes with
  | some e => ([.Init], (none, some e))
  | none =>
  -- if err = d.lock(ctx); err != nil { return nil, err }
  match d.lockRes with
  | some e => ([.Init, .Locked], (none, some e))
  | none =>
  -- if err = d.setup(ctx); err != nil { return nil, err }
  match d.setupRes with
  | some e => ([.Init, .Locked, .SetUp], (none, some e))
  | none =>
  -- if d.val.Exi() == true { return nil, &ExistError{exist: d.id} }
  match d.exi with
  | true => ([.Init, .Locked, .SetUp, .ExistenceChecked], (none, some (.existError d.id)))
  | false =>
  -- if err = d.merge(ctx, met, stm.Data); err != nil { return nil, err }
  match d.mergeRes with
  | some e => ([.Init, .Locked, .SetUp, .ExistenceChecked, .Merged], (none, some e))
  | none =>
  -- if ok, err = d.allow(ctx, met); err != nil { return nil, err }
  match d.allowErr with
  | some e =>
      ([.Init, .Locked, .SetUp, .ExistenceChecked, .Merged, .PermissionChecked],
       (none, some e))
  | none =>
  -- } else if ok == false { return nil, nil }
  match d.allowOk with
  | false =>
      ([.Init, .Locked, .SetUp, .ExistenceChecked, .Merged, .PermissionChecked],
       (none, none))
  | true =>
  -- if err = d.storeIndex(ctx); err != nil { return nil, err }
  match d.storeIndexRes with
  | some e =>
      ([.Init, .Locked, .SetUp, .ExistenceChecked, .Merged, .PermissionChecked,
        .IndexStored], (none, some e))
  | none =>
  -- if err = d.storeThing(ctx); err != nil { return nil, err }
  match d.storeThingRes with
  | some e =>
      ([.Init, .Locked, .SetUp, .ExistenceChecked, .Merged, .PermissionChecked,
        .IndexStored, .RecordStored], (none, some e))
  | none =>
  -- if err = d.table(ctx, met); err != nil { return nil, err }
  match d.tableRes with
  | some e =>
      ([.Init, .Locked, .SetUp, .ExistenceChecked, .Merged, .PermissionChecked,
        .IndexStored, .RecordStored, .TableUpdated], (none, some e))
  | none =>
  -- if err = d.lives(ctx, met); err != nil { return nil, err }
  match d.livesRes with
  | some e =>
      ([.Init, .Locked, .SetUp, .ExistenceChecked, .Merged, .PermissionChecked,
        .IndexStored, .RecordStored, .TableUpdated, .LiveNotified], (none, some e))
  | none =>
  -- if err = d.event(ctx, met); err != nil { return nil, err }
  match d.eventRes with
  | some e =>
      ([.Init, .Locked, .SetUp, .ExistenceChecked, .Merged, .PermissionChecked,
        .IndexStored, .RecordStored, .TableUpdated, .LiveNotified, .EventFired],
       (none, some e))
  | none =>
  -- return d.yield(ctx, stm, stm.Echo)
  (canonicalStages, (d.yieldVal, d.yieldErr))

/-- Whether a stage's own action fails on the run described by `d`: its
method returns a non-nil error, the existence flag is set (for
`ExistenceChecked`), or the yield call errors.  A permission denial with a
nil error (`allowOk = false`) is a silent skip, not a failure. -/
def stageFails (d : Document) : Stage → Bool
  | .Init => d.initRes.isSome
  | .Locked => d.lockRes.isSome
  | .SetUp => d.setupRes.isSome
  | .ExistenceChecked => d.exi
  | .Merged => d.mergeRes.isSome
  | .PermissionChecked => d.allowErr.isSome
  | .IndexStored => d.storeIndexRes.isSome
  | .RecordStored => d.storeThingRes.isSome
  | .TableUpdated => d.tableRes.isSome
  | .LiveNotified => d.livesRes.isSome
  | .EventFired => d.eventRes.isSome
  | .Yielded => d.yieldErr.isSome

/-- The `$parent`/`$parents` variable frame smuggled through the evaluation
context under `ctxKeySubs`.  Modelled from the spec: the `util/data` document
operations (`data.New`, `Set`, `Array`, `Append`, `Get`) used at lines
97–105 are not under `src/`; per §4.3 and the VariableFrame invariant of §3,
the frame holds the binding for `$parent` (the immediate triggering
document) and the ordered `$parents` chain (oldest first). -/
structure VarsDoc where
  parent : Option GoValue
  parents : List GoValue

/-- The slice of the ambient `context.Context` this code reads and writes:
the nesting-depth accounting touched by `dive` and the `ctxKeySubs` value
holding the current variable frame. -/
structure Ctx where
  depth : Nat
  subs : Option VarsDoc

/-- Modelled from the spec: `dive` (line 94) is not under `src/`; it applies
the nesting-depth accounting for a nested statement evaluation and leaves
the variable-scope portion of the context untouched. -/
def dive (ctx : Ctx) : Ctx :=
  { ctx with depth := ctx.depth + 1 }

/-- Lines 97–105: build the variable frame for a nested CREATE from the
calling document's data `d`.  `vars.Set(doc.Data(), varKeyParent)` binds
`$parent`; `vars.Array(varKeyParents)` starts `$parents` empty; if the
context already carries a frame, its `$parents` sequence is appended
(element-wise — modelled from the spec's invariant that a frame's `parents`
equals the enclosing frame's `parents` with the enclosing document
appended); finally `vars.Append(doc.Data(), varKeyParents)` appends the
calling document itself. -/
def fetchVars (d : GoValue) (ctx : Ctx) : VarsDoc :=
  let vars : VarsDoc := { parent := none, parents := [] }
  let vars : VarsDoc := { vars with parent := some d }
  let vars : VarsDoc :=
    match ctx.subs with
    | some subs => { vars with parents := vars.parents ++ subs.parents }
    | none => vars
  { vars with parents := vars.parents ++ [d] }

/-- Lines 94–107 of `fetchCreate`: the context actually handed to
`executeCreate` — dived for depth accounting and, when the calling document
is non-nil, carrying the freshly built variable frame under `ctxKeySubs`. -/
def fetchCreateFrame (ctx : Ctx) (doc : Option GoValue) : Ctx :=
  let ctx := dive ctx
  match doc with
  | some d => { ctx with subs := some (fetchVars d ctx) }
  | none => ctx

/-- The dynamic type of an evaluated WHAT expression, as discriminated by
the type switch of lines 49–84: `*sql.Table`, `*sql.Ident`, `*sql.Thing`,
`*sql.Model`, `*sql.Batch`, `[]interface{}` (subquery result),
`map[string]interface{}` (subquery result with LIMIT 1), or any other value
(the `default` arm).  Model and batch payloads beyond the table name are
carried opaquely; no claim depends on their internals. -/
inductive WhatVal where
  | table (tb : String) : WhatVal
  | ident (va : String) : WhatVal
  | thing (tb : String) (id : GoValue) : WhatVal
  | model (tb : String) (gen : GoValue) : WhatVal
  | batch (tb : String) (ents : List GoValue) : WhatVal
  | seq (vals : List GoValue) : WhatVal
  | mapv (fields : List (String × GoValue)) : WhatVal
  | scalar (v : GoValue) : WhatVal

/-- A `keys.Thing` storage key as built by `executeCreate`: engine instance
(`KV`), namespace, database, table and record identifier.  A key built
without `TB`/`ID` (the subquery arms, lines 76 and 81) keeps Go's zero
values: empty table name, nil identifier. -/
structure KeyThing where
  kv : String
  ns : String
  db : String
  tb : String
  id : Option GoValue

/-- The enqueue operation of the iterator that `executeCreate` invokes for
one resolved target: which handler (`processThing`, `processModel`,
`processBatch`, `processOther`) and with which arguments. -/
inductive Enqueue where
  | processThing (key : KeyThing) : Enqueue
  | processModel (key : KeyThing) (tb : String) (gen : GoValue) : Enqueue
  | processBatch (key : KeyThing) (tb : String) (ents : List GoValue) : Enqueue
  | processOther (key : KeyThing) (vals : List GoValue) : Enqueue

/-- A WHAT expression, given by its evaluation under `e.fetch` against a
context: the expression evaluator is an external collaborator (§6), so an
expression is modelled by the value or error it evaluates to. -/
def CreateExpr : Type :=
  Ctx → Except GoErr WhatVal

/-- The parts of `*sql.CreateStatement` this layer inspects: the WHAT
clause.  (`stm.Data` and `stm.Echo` are only passed through to the
document pipeline's `merge` and `yield`, whose outcomes the `Document`
oracle records.) -/
structure CreateStatement where
  what : List CreateExpr

/-- The package-level engine-instance identifier `KV` referenced by every
key literal in `executeCreate`. -/
def KV : String := "KV"

/-- The `executor` receiver together with the behaviour of its external
collaborators: `e.ns`/`e.db`, the outcome of the `e.access(ctx, cnf.AuthNO)`
check (line 31), the stream of fresh identifiers `guid.New().String()`
produces (the n-th call yields `guids n`), and — modelled from the spec —
the iterator created at line 45, whose `Yield` (line 88) drains the enqueued
targets and produces the statement's results or first hard failure
(§4.4; `newIterator` and `Yield` are not under `src/`). -/
structure Executor where
  ns : String
  db : String
  accessErr : Option GoErr
  guids : Nat → String
  yieldFn : Ctx → List Enqueue → Except GoErr (List GoValue)

/-- One arm of the type switch of lines 49–84, given the index `n` of the
next fresh identifier: which iterator enqueue the arm performs, or the
`default` arm's fail-fast unsupported-target error (line 52), which names
the offending value. -/
def dispatchWhat (e : Executor) (n : Nat) (w : WhatVal) : Except GoErr (Enqueue × Nat) :=
  match w with
  | .scalar v => .error (.unsupported v)
  | .table tb =>
      .ok (.processThing ⟨KV, e.ns, e.db, tb, some (.str (e.guids n))⟩, n + 1)
  | .ident va =>
      .ok (.processThing ⟨KV, e.ns, e.db, va, some (.str (e.guids n))⟩, n + 1)
  | .thing tb id => .ok (.processThing ⟨KV, e.ns, e.db, tb, some id⟩, n)
  | .model tb gen => .ok (.processModel ⟨KV, e.ns, e.db, tb, none⟩ tb gen, n)
  | .batch tb ents => .ok (.processBatch ⟨KV, e.ns, e.db, tb, none⟩ tb ents, n)
  | .seq vals => .ok (.processOther ⟨KV, e.ns, e.db, "", none⟩ vals, n)
  | .mapv fields => .ok (.processOther ⟨KV, e.ns, e.db, "", none⟩ [.obj fields], n)

/-- The `for _, w := range what` loop of lines 47–86: dispatch each
evaluated WHAT value in order, threading the fresh-identifier index, and
return the enqueued actions with the final index — or return the first
`default`-arm error immediately, exactly as the `return nil, fmt.Errorf…`
of line 52 abandons the loop (and the already enqueued targets) without
reaching `Yield`. -/
def processWhats (e : Executor) (n : Nat) (ws : List WhatVal) :
    Except GoErr (List Enqueue × Nat) :=
  match ws with
  | [] => .ok ([], n)
  | w :: rest =>
    match dispatchWhat e n w with
    | .error err => .error err
    | .ok (a, n2) =>
      match processWhats e n2 rest with
      | .error err => .error err
      | .ok (as2, n3) => .ok (a :: as2, n3)

/-- The fetch loop of lines 37–43: evaluate every WHAT expression against
the current context, returning the first evaluation error. -/
def fetchWhats (ctx : Ctx) (exprs : List CreateExpr) : Except GoErr (List WhatVal) :=
  match exprs with
  | [] => .ok []
  | x :: rest =>
    match x ctx with
    | .error err => .error err
    | .ok w =>
      match fetchWhats ctx rest with
      | .error err => .error err
      | .ok ws => .ok (w :: ws)

/-- `executeCreate` (lines 29–90): namespace access check, WHAT evaluation,
target dispatch, and finally the iterator's `Yield`.  Any error on the way
is returned with no results. -/
def executeCreate (e : Executor) (ctx : Ctx) (stm : CreateStatement) :
    Except GoErr (List GoValue) :=
  match e.accessErr with
  | some err => .error err
  | none =>
    match fetchWhats ctx stm.what with
    | .error err => .error err
    | .ok whats =>
      match processWhats e 0 whats with
      | .error err => .error err
      | .ok (acts, _) => e.yieldFn ctx acts

/-- Modelled from the spec: `data.Consume(out).Get(docKeyOne, docKeyId)`
(line 116) — the `docKey…` constants and `util/data` are not under `src/`;
per §4.4 the collector unwraps a one-element result to a bare value. -/
def consumeOne (out : List GoValue) : GoValue :=
  out.headD .null

/-- Modelled from the spec: `data.Consume(out).Get(docKeyAll, docKeyId)`
(line 118) — the `docKey…` constants and `util/data` are not under `src/`;
per §4.4 the non-scalar case returns the sequence of per-document values. -/
def consumeAll (out : List GoValue) : GoValue :=
  .arr out

/-- The `switch len(out)` of lines 114–119: a one-element result is
unwrapped to a bare value, anything else is returned as a sequence. -/
def fetchProject (out : List GoValue) : GoValue :=
  if out.length = 1 then consumeOne out else consumeAll out

/-- Lines 109–119: propagate an `executeCreate` error unchanged, otherwise
project the result list. -/
def fetchFinish (r : Except GoErr (List GoValue)) : Except GoErr GoValue :=
  match r with
  | .error err => .error err
  | .ok out => .ok (fetchProject out)

/-- `fetchCreate` (lines 92–121): dive the context, install the
`$parent`/`$parents` frame when a calling document is present, delegate to
`executeCreate`, and project the result. -/
def fetchCreate (e : Executor) (ctx : Ctx) (stm : CreateStatement)
    (doc : Option GoValue) : Except GoErr GoValue :=
  fetchFinish (executeCreate e (fetchCreateFrame ctx doc) stm)

/-! Concrete fixtures used by the closed witness and counterexample
theorems below. -/

/-- A sample record identifier. -/
def idTobie : GoValue := GoValue.str "person:tobie"

/-- A sample projected result row. -/
def rowTobie : GoValue := GoValue.str "created:tobie"

/-- A run on which `setup` finds the record already existing: the first
three stages succeed and the loaded value's existence flag is true. -/
def docExists : Document :=
  { id := idTobie, initRes := none, lockRes := none, setupRes := none,
    exi := true, mergeRes := none, allowOk := true, allowErr := none,
    storeIndexRes := none, storeThingRes := none, tableRes := none,
    livesRes := none, eventRes := none, yieldVal := none, yieldErr := none }

/-- The error returned by the table-statistics update in the fixtures. -/
def errTable : GoErr := GoErr.err "table bookkeeping failed"

/-- A run on which every stage succeeds except the per-table statistics
update (`d.table`), which returns an error. -/
def docTableFail : Document :=
  { id := idTobie, initRes := none, lockRes := none, setupRes := none,
    exi := false, mergeRes := none, allowOk := true, allowErr := none,
    storeIndexRes := none, storeThingRes := none, tableRes := some errTable,
    livesRes := none, eventRes := none, yieldVal := some rowTobie, yieldErr := none }

/-- The error returned by the live-query notification in the fixtures. -/
def errLives : GoErr := GoErr.err "live query notification failed"

/-- A run on which every stage succeeds except the live-query notification
(`d.lives`), which returns an error. -/
def docLivesFail : Document :=
  { id := idTobie, initRes := none, lockRes := none, setupRes := none,
    exi := false, mergeRes := none, allowOk := true, allowErr := none,
    storeIndexRes := none, storeThingRes := none, tableRes := none,
    livesRes := some errLives, eventRes := none, yieldVal := some rowTobie,
    yieldErr := none }

/-- A run on which the `allow`-for-create rule evaluates to false with no
evaluator error. -/
def docDenied : Document :=
  { id := idTobie, initRes := none, lockRes := none, setupRes := none,
    exi := false, mergeRes := none, allowOk := false, allowErr := none,
    storeIndexRes := none, storeThingRes := none, tableRes := none,
    livesRes := none, eventRes := none, yieldVal := some rowTobie, yieldErr := none }

/-- A sample namespace name. -/
def nsTest : String := "testns"

/-- A sample database name. -/
def dbTest : String := "testdb"

/-- A sample fresh identifier stream. -/
def guidsTest : Nat → String := fun n => String.append "guid-" (toString n)

/-- An executor whose access check passes and whose iterator yields no
rows. -/
def exeEmpty : Executor :=
  { ns := nsTest, db := dbTest, accessErr := none, guids := guidsTest,
    yieldFn := fun _ _ => .ok [] }

/-- A context with no enclosing variable frame. -/
def ctxRoot : Ctx := { depth := 0, subs := none }

/-- A statement whose single WHAT expression evaluates to a boolean — an
unsupported CREATE target. -/
def stmBadWhat : CreateStatement :=
  { what := [fun _ => .ok (.scalar (.bool true))] }

/-- A sample result row for the scalar-unwrap witness. -/
def rowOne : GoValue := GoValue.str "created:one"

/-- An executor whose iterator yields exactly one row. -/
def exeOneRow : Executor :=
  { ns := nsTest, db := dbTest, accessErr := none, guids := guidsTest,
    yieldFn := fun _ _ => .ok [rowOne] }

/-- A sample table name. -/
def tbPerson : String := "person"

/-- A sample explicit record identifier. -/
def idOne : GoValue := GoValue.str "one"

/-- A statement that is a single CREATE of one explicit Thing. -/
def stmOneThing : CreateStatement :=
  { what := [fun _ => .ok (.thing tbPerson idOne)] }

/-- A sample field name. -/
def kName : String := "name"

/-- The single mapping produced by a LIMIT-1 collapsed subquery in the
fixtures. -/
def fsLimitOne : List (String × GoValue) := [(kName, GoValue.num 1)]

/-- A WHAT expression evaluating to that single mapping. -/
def exprMap : CreateExpr := fun _ => .ok (.mapv fsLimitOne)

/-- A WHAT expression evaluating to the one-element sequence holding that
mapping. -/
def exprSeqOfMap : CreateExpr := fun _ => .ok (.seq [GoValue.obj fsLimitOne])

/-- A sample grandparent document datum. -/
def gpDoc : GoValue := GoValue.str "doc:grandparent"

/-- A sample root (oldest ancestor) document datum. -/
def rootDoc : GoValue := GoValue.str "doc:root"

/-- A sample calling-document datum. -/
def childDoc : GoValue := GoValue.obj [(kName, idOne)]

/-- A context already carrying an enclosing variable frame whose `$parents`
chain is root-then-grandparent. -/
def ctxNested : Ctx :=
  { depth := 2, subs := some { parent := some gpDoc, parents := [rootDoc, gpDoc] } }

/-- Helper for C1: the trace of every `runCreate` run is an initial segment
of the canonical stage order. -/
theorem runCreate_trace_initseg (d : Document) :
    ∃ n, (runCreate d).1 = canonicalStages.take n := by
  cases h1 : d.initRes with
  | some e => exact ⟨1, by simp only [runCreate, h1]; rfl⟩
  | none =>
  cases h2 : d.lockRes with
  | some e => exact ⟨2, by simp only [runCreate, h1, h2]; rfl⟩
  | none =>
  cases h3 : d.setupRes with
  | some e => exact ⟨3, by simp only [runCreate, h1, h2, h3]; rfl⟩
  | none =>
  cases h4 : d.exi with
  | true => exact ⟨4, by simp only [runCreate, h1, h2, h3, h4]; rfl⟩
  | false =>
  cases h5 : d.mergeRes with
  | some e => exact ⟨5, by simp only [runCreate, h1, h2, h3, h4, h5]; rfl⟩
  | none =>
  cases h6 : d.allowErr with
  | some e => exact ⟨6, by simp only [runCreate, h1, h2, h3, h4, h5, h6]; rfl⟩
  | none =>
  cases h7 : d.allowOk with
  | false => exact ⟨6, by simp only [runCreate, h1, h2, h3, h4, h5, h6, h7]; rfl⟩
  | true =>
  cases h8 : d.storeIndexRes with
  | some e => exact ⟨7, by simp only [runCreate, h1, h2, h3, h4, h5, h6, h7, h8]; rfl⟩
  | none =>
  cases h9 : d.storeThingRes with
  | some e => exact ⟨8, by simp only [runCreate, h1, h2, h3, h4, h5, h6, h7, h8, h9]; rfl⟩
  | none =>
  cases h10 : d.tableRes with
  | some e =>
      exact ⟨9, by simp only [runCreate, h1, h2, h3, h4, h5, h6, h7, h8, h9, h10]; rfl⟩
  | none =>
  cases h11 : d.livesRes with
  | some e =>
      exact ⟨10, by
        simp only [runCreate, h1, h2, h3, h4, h5, h6, h7, h8, h9, h10, h11]; rfl⟩
  | none =>
  cases h12 : d.eventRes with
  | some e =>
      exact ⟨11, by
        simp only [runCreate, h1, h2, h3, h4, h5, h6, h7, h8, h9, h10, h11, h12]; rfl⟩
  | none =>
      exact ⟨12, by
        simp only [runCreate, h1, h2, h3, h4, h5, h6, h7, h8, h9, h10, h11, h12]; rfl⟩

/-- Helper for C1: on every run, a stage whose own action fails is the last
stage of the trace — the early-return chain runs nothing after it. -/
theorem runCreate_fail_last (d : Document) :
    ∀ s ∈ (runCreate d).1, stageFails d s = true → (runCreate d).1.getLast? = some s := by
  cases h1 : d.initRes with
  | some e =>
    intro s hs hf
    simp only [runCreate, h1] at hs ⊢
    fin_cases hs
    · rfl
  | none =>
  cases h2 : d.lockRes with
  | some e =>
    intro s hs hf
    simp only [runCreate, h1, h2] at hs ⊢
    fin_cases hs
    · simp [stageFails, h1] at hf
    · rfl
  | none =>
  cases h3 : d.setupRes with
  | some e =>
    intro s hs hf
    simp only [runCreate, h1, h2, h3] at hs ⊢
    fin_cases hs
    · simp [stageFails, h1] at hf
    · simp [stageFails, h2] at hf
    · rfl
  | none =>
  cases h4 : d.exi with
  | true =>
    intro s hs hf
    simp only [runCreate, h1, h2, h3, h4] at hs ⊢
    fin_cases hs
    · simp [stageFails, h1] at hf
    · simp [stageFails, h2] at hf
    · simp [stageFails, h3] at hf
    · rfl
  | false =>
  cases h5 : d.mergeRes with
  | some e =>
    intro s hs hf
    simp only [runCreate, h1, h2, h3, h4, h5] at hs ⊢
    fin_cases hs
    · simp [stageFails, h1] at hf
    · simp [stageFails, h2] at hf
    · simp [stageFails, h3] at hf
    · simp [stageFails, h4] at hf
    · rfl
  | none =>
  cases h6 : d.allowErr with
  | some e =>
    intro s hs hf
    simp only [runCreate, h1, h2, h3, h4, h5, h6] at hs ⊢
    fin_cases hs
    · simp [stageFails, h1] at hf
    · simp [stageFails, h2] at hf
    · simp [stageFails, h3] at hf
    · simp [stageFails, h4] at hf
    · simp [stageFails, h5] at hf
    · rfl
  | none =>
  cases h7 : d.allowOk with
  | false =>
    intro s hs hf
    simp only [runCreate, h1, h2, h3, h4, h5, h6, h7] at hs ⊢
    fin_cases hs
    · simp [stageFails, h1] at hf
    · simp [stageFails, h2] at hf
    · simp [stageFails, h3] at hf
    · simp [stageFails, h4] at hf
    · simp [stageFails, h5] at hf
    · rfl
  | true =>
  cases h8 : d.storeIndexRes with
  | some e =>
    intro s hs hf
    simp only [runCreate, h1, h2, h3, h4, h5, h6, h7, h8] at hs ⊢
    fin_cases hs
    · simp [stageFails, h1] at hf
    · simp [stageFails, h2] at hf
    · simp [stageFails, h3] at hf
    · simp [stageFails, h4] at hf
    · simp [stageFails, h5] at hf
    · simp [stageFails, h6] at hf
    · rfl
  | none =>
  cases h9 : d.storeThingRes with
  | some e =>
    intro s hs hf
    simp only [runCreate, h1, h2, h3, h4, h5, h6, h7, h8, h9] at hs ⊢
    fin_cases hs
    · simp [stageFails, h1] at hf
    · simp [stageFails, h2] at hf
    · simp [stageFails, h3] at hf
    · simp [stageFails, h4] at hf
    · simp [stageFails, h5] at hf
    · simp [stageFails, h6] at hf
    · simp [stageFails, h8] at hf
    · rfl
  | none =>
  cases h10 : d.tableRes with
  | some e =>
    intro s hs hf
    simp only [runCreate, h1, h2, h3, h4, h5, h6, h7, h8, h9, h10] at hs ⊢
    fin_cases hs
    · simp [stageFails, h1] at hf
    · simp [stageFails, h2] at hf
    · simp [stageFails, h3] at hf
    · simp [stageFails, h4] at hf
    · simp [stageFails, h5] at hf
    · simp [stageFails, h6] at hf
    · simp [stageFails, h8] at hf
    · simp [stageFails, h9] at hf
    · rfl
  | none =>
  cases h11 : d.livesRes with
  | some e =>
    intro s hs hf
    simp only [runCreate, h1, h2, h3, h4, h5, h6, h7, h8, h9, h10, h11] at hs ⊢
    fin_cases hs
    · simp [stageFails, h1] at hf
    · simp [stageFails, h2] at hf
    · simp [stageFails, h3] at hf
    · simp [stageFails, h4] at hf
    · simp [stageFails, h5] at hf
    · simp [stageFails, h6] at hf
    · simp [stageFails, h8] at hf
    · simp [stageFails, h9] at hf
    · simp [stageFails, h10] at hf
    · rfl
  | none =>
  cases h12 : d.eventRes with
  | some e =>
    intro s hs hf
    simp only [runCreate, h1, h2, h3, h4, h5, h6, h7, h8, h9, h10, h11, h12] at hs ⊢
    fin_cases hs
    · simp [stageFails, h1] at hf
    · simp [stageFails, h2] at hf
    · simp [stageFails, h3] at hf
    · simp [stageFails, h4] at hf
    · simp [stageFails, h5] at hf
    · simp [stageFails, h6] at hf
    · simp [stageFails, h8] at hf
    · simp [stageFails, h9] at hf
    · simp [stageFails, h10] at hf
    · simp [stageFails, h11] at hf
    · rfl
  | none =>
    intro s hs hf
    simp only [runCreate, h1, h2, h3, h4, h5, h6, h7, h8, h9, h10, h11, h12] at hs ⊢
    fin_cases hs
    · simp [stageFails, h1] at hf
    · simp [stageFails, h2] at hf
    · simp [stageFails, h3] at hf
    · simp [stageFails, h4] at hf
    · simp [stageFails, h5] at hf
    · simp [stageFails, h6] at hf
    · simp [stageFails, h8] at hf
    · simp [stageFails, h9] at hf
    · simp [stageFails, h10] at hf
    · simp [stageFails, h11] at hf
    · simp [stageFails, h12] at hf
    · rfl

/-- C1: for every document processed by `runCreate`, the lifecycle stages
execute in the fixed order Init, Locked, SetUp, ExistenceChecked, Merged,
PermissionChecked, IndexStored, RecordStored, TableUpdated, LiveNotified,
EventFired, Yielded — the executed trace is an initial segment of that
order — with no stage re-entered (the trace has no duplicates) and no later
stage executed once a stage has failed (a failing stage is the last of the
trace). -/
theorem runCreate_stage_order (d : Document) :
    (∃ n, (runCreate d).1 = canonicalStages.take n) ∧
      (runCreate d).1.Nodup ∧
      ∀ s ∈ (runCreate d).1, stageFails d s = true → (runCreate d).1.getLast? = some s := by
  refine ⟨runCreate_trace_initseg d, ?_, runCreate_fail_last d⟩
  obtain ⟨n, hn⟩ := runCreate_trace_initseg d
  rw [hn]
  exact List.Nodup.sublist (List.take_sublist n canonicalStages) (by decide)

/-- C2: whenever `init`, `lock` and `setup` succeed and the loaded stored
value's existence flag is true after SetUp, `runCreate` returns the
already-exists error carrying the target identifier `d.id`, and none of the
later stages (merge, permission check, index store, record store, table
update, live notify, event, yield) run — the trace stops at
ExistenceChecked. -/
theorem runCreate_already_exists (d : Document)
    (h1 : d.initRes = none) (h2 : d.lockRes = none) (h3 : d.setupRes = none)
    (h4 : d.exi = true) :
    runCreate d =
      ([.Init, .Locked, .SetUp, .ExistenceChecked],
       (none, some (.existError d.id))) := by
  simp only [runCreate, h1, h2, h3, h4]

/-- Witness for C2 at a concrete run: the record for `person:tobie` already
exists, so the pipeline stops at ExistenceChecked with the ExistError
carrying that identifier. -/
theorem runCreate_already_exists_witness :
    docExists.exi = true ∧
      runCreate docExists =
        ([.Init, .Locked, .SetUp, .ExistenceChecked],
         (none, some (.existError idTobie))) :=
  ⟨rfl, runCreate_already_exists docExists rfl rfl rfl rfl⟩

/-- C3 counterexample: on the concrete run `docTableFail`, every stage up to
the record store succeeds and the per-table statistics update (`d.table`)
returns an error — and `runCreate` does fail: it propagates exactly that
error (so the claim that a TableUpdated failure is not propagated is false),
stopping the trace at TableUpdated. -/
theorem runCreate_table_fail_cex :
    runCreate docTableFail =
      ([.Init, .Locked, .SetUp, .ExistenceChecked, .Merged, .PermissionChecked,
        .IndexStored, .RecordStored, .TableUpdated], (none, some errTable)) ∧
      (runCreate docTableFail).2.2 ≠ none :=
  ⟨rfl, fun h => Option.noConfusion h⟩

/-- C3 as amended: a failure returned by the TableUpdated stage (the
per-table statistics update, `d.table`) IS propagated — `runCreate` returns
that error and the later stages (live notify, event, yield) do not run. -/
theorem runCreate_table_fail_propagates (d : Document) (e : GoErr)
    (h1 : d.initRes = none) (h2 : d.lockRes = none) (h3 : d.setupRes = none)
    (h4 : d.exi = false) (h5 : d.mergeRes = none) (h6 : d.allowErr = none)
    (h7 : d.allowOk = true) (h8 : d.storeIndexRes = none)
    (h9 : d.storeThingRes = none) (h10 : d.tableRes = some e) :
    runCreate d =
      ([.Init, .Locked, .SetUp, .ExistenceChecked, .Merged, .PermissionChecked,
        .IndexStored, .RecordStored, .TableUpdated], (none, some e)) := by
  simp only [runCreate, h1, h2, h3, h4, h5, h6, h7, h8, h9, h10]

/-- Witness for the amended C3 at the concrete run `docTableFail`. -/
theorem runCreate_table_fail_propagates_witness :
    docTableFail.tableRes = some errTable ∧
      runCreate docTableFail =
        ([.Init, .Locked, .SetUp, .ExistenceChecked, .Merged, .PermissionChecked,
          .IndexStored, .RecordStored, .TableUpdated], (none, some errTable)) :=
  ⟨rfl, runCreate_table_fail_propagates docTableFail errTable
    rfl rfl rfl rfl rfl rfl rfl rfl rfl rfl⟩

/-- C4 counterexample: on the concrete run `docLivesFail`, every stage up to
the table update succeeds and the live-query notification (`d.lives`)
returns an error — and `runCreate` does fail: it propagates exactly that
error (so the claim that a LiveNotified failure does not cause `runCreate`
to fail is false), stopping the trace at LiveNotified. -/
theorem runCreate_lives_fail_cex :
    runCreate docLivesFail =
      ([.Init, .Locked, .SetUp, .ExistenceChecked, .Merged, .PermissionChecked,
        .IndexStored, .RecordStored, .TableUpdated, .LiveNotified],
       (none, some errLives)) ∧
      (runCreate docLivesFail).2.2 ≠ none :=
  ⟨rfl, fun h => Option.noConfusion h⟩

/-- C4 as amended: a failure returned by the LiveNotified stage (the
live-query notification, `d.lives`) IS propagated — `runCreate` returns
that error and the later stages (event, yield) do not run. -/
theorem runCreate_lives_fail_propagates (d : Document) (e : GoErr)
    (h1 : d.initRes = none) (h2 : d.lockRes = none) (h3 : d.setupRes = none)
    (h4 : d.exi = false) (h5 : d.mergeRes = none) (h6 : d.allowErr = none)
    (h7 : d.allowOk = true) (h8 : d.storeIndexRes = none)
    (h9 : d.storeThingRes = none) (h10 : d.tableRes = none)
    (h11 : d.livesRes = some e) :
    runCreate d =
      ([.Init, .Locked, .SetUp, .ExistenceChecked, .Merged, .PermissionChecked,
        .IndexStored, .RecordStored, .TableUpdated, .LiveNotified],
       (none, some e)) := by
  simp only [runCreate, h1, h2, h3, h4, h5, h6, h7, h8, h9, h10, h11]

/-- Witness for the amended C4 at the concrete run `docLivesFail`. -/
theorem runCreate_lives_fail_propagates_witness :
    docLivesFail.livesRes = some errLives ∧
      runCreate docLivesFail =
        ([.Init, .Locked, .SetUp, .ExistenceChecked, .Merged, .PermissionChecked,
          .IndexStored, .RecordStored, .TableUpdated, .LiveNotified],
         (none, some errLives)) :=
  ⟨rfl, runCreate_lives_fail_propagates docLivesFail errLives
    rfl rfl rfl rfl rfl rfl rfl rfl rfl rfl rfl⟩

/-- C5: whenever the stages through the merge succeed and the
allow-for-create rule evaluates to false with no evaluator error,
`runCreate` returns neither an error nor a result row — `(nil, nil)` — and
no subsequent stage runs: no index write, no primary record write, no table
update, no live notification, no event; the trace stops at
PermissionChecked. -/
theorem runCreate_permission_skip (d : Document)
    (h1 : d.initRes = none) (h2 : d.lockRes = none) (h3 : d.setupRes = none)
    (h4 : d.exi = false) (h5 : d.mergeRes = none) (h6 : d.allowErr = none)
    (h7 : d.allowOk = false) :
    runCreate d =
      ([.Init, .Locked, .SetUp, .ExistenceChecked, .Merged, .PermissionChecked],
       (none, none)) := by
  simp only [runCreate, h1, h2, h3, h4, h5, h6, h7]

/-- Witness for C5 at the concrete run `docDenied`: the rule evaluates to
false, and the run yields no error, no row, and no stage past
PermissionChecked. -/
theorem runCreate_permission_skip_witness :
    docDenied.allowOk = false ∧
      runCreate docDenied =
        ([.Init, .Locked, .SetUp, .ExistenceChecked, .Merged, .PermissionChecked],
         (none, none)) :=
  ⟨rfl, runCreate_permission_skip docDenied rfl rfl rfl rfl rfl rfl rfl⟩

/-- Helper for C6: on every dispatch pass over evaluated WHAT values that
contains an unsupported value (the `default` arm of the type switch), the
loop stops with the unsupported-target error of one such value. -/
theorem processWhats_unsupported (e : Executor) :
    ∀ (ws : List WhatVal) (n : Nat), (∃ v, WhatVal.scalar v ∈ ws) →
      ∃ v, WhatVal.scalar v ∈ ws ∧
        processWhats e n ws = .error (.unsupported v) := by
  intro ws
  induction ws with
  | nil =>
    intro n hex
    obtain ⟨v, hv⟩ := hex
    exact absurd hv (List.not_mem_nil _)
  | cons w rest ih =>
    intro n hex
    obtain ⟨v, hv⟩ := hex
    rw [List.mem_cons] at hv
    cases w with
    | scalar u =>
      exact ⟨u, List.mem_cons_self _ _, by simp [processWhats, dispatchWhat]⟩
    | table tb =>
      rcases hv with heq | hv
      · simp at heq
      · obtain ⟨u, hu, heq⟩ := ih (n + 1) ⟨v, hv⟩
        exact ⟨u, List.mem_cons_of_mem _ hu,
          by simp only [processWhats, dispatchWhat, heq]⟩
    | ident va =>
      rcases hv with heq | hv
      · simp at heq
      · obtain ⟨u, hu, heq⟩ := ih (n + 1) ⟨v, hv⟩
        exact ⟨u, List.mem_cons_of_mem _ hu,
          by simp only [processWhats, dispatchWhat, heq]⟩
    | thing tb id =>
      rcases hv with heq | hv
      · simp at heq
      · obtain ⟨u, hu, heq⟩ := ih n ⟨v, hv⟩
        exact ⟨u, List.mem_cons_of_mem _ hu,
          by simp only [processWhats, dispatchWhat, heq]⟩
    | model tb gen =>
      rcases hv with heq | hv
      · simp at heq
      · obtain ⟨u, hu, heq⟩ := ih n ⟨v, hv⟩
        exact ⟨u, List.mem_cons_of_mem _ hu,
          by simp only [processWhats, dispatchWhat, heq]⟩
    | batch tb ents =>
      rcases hv with heq | hv
      · simp at heq
      · obtain ⟨u, hu, heq⟩ := ih n ⟨v, hv⟩
        exact ⟨u, List.mem_cons_of_mem _ hu,
          by simp only [processWhats, dispatchWhat, heq]⟩
    | seq vals =>
      rcases hv with heq | hv
      · simp at heq
      · obtain ⟨u, hu, heq⟩ := ih n ⟨v, hv⟩
        exact ⟨u, List.mem_cons_of_mem _ hu,
          by simp only [processWhats, dispatchWhat, heq]⟩
    | mapv fields =>
      rcases hv with heq | hv
      · simp at heq
      · obtain ⟨u, hu, heq⟩ := ih n ⟨v, hv⟩
        exact ⟨u, List.mem_cons_of_mem _ hu,
          by simp only [processWhats, dispatchWhat, heq]⟩

/-- C6: whenever the access check passes, every WHAT expression evaluates,
and some evaluated WHAT value is outside the supported target kinds (Table,
Ident, Thing, Model, Batch, sequence, mapping), `executeCreate` fails the
whole statement with the unsupported-CREATE-target error naming such an
offending value, and returns no results — `Yield` is never reached. -/
theorem executeCreate_unsupported_target (e : Executor) (ctx : Ctx)
    (stm : CreateStatement) (ws : List WhatVal) (v : GoValue)
    (hacc : e.accessErr = none) (hws : fetchWhats ctx stm.what = .ok ws)
    (hv : WhatVal.scalar v ∈ ws) :
    ∃ u, WhatVal.scalar u ∈ ws ∧
      executeCreate e ctx stm = .error (.unsupported u) := by
  obtain ⟨u, hu, he⟩ := processWhats_unsupported e ws 0 ⟨v, hv⟩
  exact ⟨u, hu, by simp only [executeCreate, hacc, hws, he]⟩

/-- Witness for C6 at a concrete statement whose single WHAT expression
evaluates to a boolean: the whole statement fails with the
unsupported-target error naming that boolean. -/
theorem executeCreate_unsupported_target_witness :
    exeEmpty.accessErr = none ∧
      ∃ u, WhatVal.scalar u ∈ [WhatVal.scalar (GoValue.bool true)] ∧
        executeCreate exeEmpty ctxRoot stmBadWhat = .error (.unsupported u) :=
  ⟨rfl,
   executeCreate_unsupported_target exeEmpty ctxRoot stmBadWhat
     [WhatVal.scalar (GoValue.bool true)] (GoValue.bool true)
     rfl rfl (List.mem_singleton.mpr rfl)⟩

/-- C7: for every `fetchCreate` invocation with a non-nil calling document,
the variable frame established before delegating binds `$parent` to the
calling document's data and binds `$parents` to the enclosing frame's
`$parents` sequence with the calling document appended as its last element
(oldest first).  The push is a total function — it never fails. -/
theorem fetchCreate_parent_frame (ctx : Ctx) (d : GoValue) (s : VarsDoc)
    (h : ctx.subs = some s) :
    fetchCreateFrame ctx (some d) =
      { depth := ctx.depth + 1,
        subs := some { parent := some d, parents := s.parents ++ [d] } } := by
  obtain ⟨dep, subs⟩ := ctx
  have h2 : subs = some s := h
  subst h2
  rfl

/-- Witness for C7 at a concrete nested context: the enclosing chain is
root-then-grandparent, and the frame built for the calling document binds
`$parent` to it and `$parents` to root, grandparent, calling document. -/
theorem fetchCreate_parent_frame_witness :
    ctxNested.subs = some { parent := some gpDoc, parents := [rootDoc, gpDoc] } ∧
      fetchCreateFrame ctxNested (some childDoc) =
        { depth := 3,
          subs := some { parent := some childDoc,
                         parents := [rootDoc, gpDoc, childDoc] } } :=
  ⟨rfl,
   fetchCreate_parent_frame ctxNested childDoc
     { parent := some gpDoc, parents := [rootDoc, gpDoc] } rfl⟩

/-- C8: whenever the underlying `executeCreate` succeeds, `fetchCreate`
unwraps a one-element result (the scalar case — e.g. a single CREATE of one
explicit Thing) to a bare single value, and otherwise returns a sequence of
the values. -/
theorem fetchCreate_unwraps_single (e : Executor) (ctx : Ctx)
    (stm : CreateStatement) (doc : Option GoValue) (out : List GoValue)
    (h : executeCreate e (fetchCreateFrame ctx doc) stm = .ok out) :
    (out.length = 1 → fetchCreate e ctx stm doc = .ok (consumeOne out)) ∧
      (out.length ≠ 1 → fetchCreate e ctx stm doc = .ok (consumeAll out)) := by
  constructor
  · intro hl
    simp only [fetchCreate, fetchFinish, h, fetchProject, if_pos hl]
  · intro hl
    simp only [fetchCreate, fetchFinish, h, fetchProject, if_neg hl]

/-- Witness for C8 at a concrete single CREATE of one explicit Thing whose
iterator yields exactly one row: the result is the bare unwrapped value. -/
theorem fetchCreate_unwraps_single_witness :
    executeCreate exeOneRow (fetchCreateFrame ctxRoot none) stmOneThing = .ok [rowOne] ∧
      fetchCreate exeOneRow ctxRoot stmOneThing none = .ok (consumeOne [rowOne]) :=
  ⟨rfl,
   (fetchCreate_unwraps_single exeOneRow ctxRoot stmOneThing none [rowOne] rfl).1 rfl⟩

/-- Helper for C9: evaluating the WHAT expressions of a split list composes
from the two halves. -/
theorem fetchWhats_append (ctx : Ctx) (l1 l2 : List CreateExpr) :
    fetchWhats ctx (l1 ++ l2) =
      match fetchWhats ctx l1 with
      | .error err => .error err
      | .ok a =>
        match fetchWhats ctx l2 with
        | .error err => .error err
        | .ok b => .ok (a ++ b) := by
  induction l1 with
  | nil =>
    cases h : fetchWhats ctx l2 with
    | error err => simp [fetchWhats, h]
    | ok b => simp [fetchWhats, h]
  | cons x rest ih =>
    simp only [List.cons_append, fetchWhats, List.append_eq]
    cases hx : x ctx with
    | error err => rfl
    | ok w =>
      rw [ih]
      cases h1 : fetchWhats ctx rest with
      | error err => rfl
      | ok a =>
        cases h2 : fetchWhats ctx l2 with
        | error err => rfl
        | ok b => rfl

/-- Helper for C9: dispatching a split list of evaluated WHAT values
composes from the two halves, threading the fresh-identifier index. -/
theorem processWhats_append (e : Executor) (n : Nat) (l1 l2 : List WhatVal) :
    processWhats e n (l1 ++ l2) =
      match processWhats e n l1 with
      | .error err => .error err
      | .ok (a, n1) =>
        match processWhats e n1 l2 with
        | .error err => .error err
        | .ok (b, n2) => .ok (a ++ b, n2) := by
  induction l1 generalizing n with
  | nil =>
    cases h : processWhats e n l2 with
    | error err => simp [processWhats, h]
    | ok r => obtain ⟨b, n2⟩ := r; simp [processWhats, h]
  | cons w rest ih =>
    simp only [List.cons_append, processWhats, List.append_eq]
    cases hd : dispatchWhat e n w with
    | error err => rfl
    | ok p =>
      obtain ⟨a, n2⟩ := p
      dsimp only
      rw [ih n2]
      cases h1 : processWhats e n2 rest with
      | error err => rfl
      | ok q =>
        obtain ⟨as2, n3⟩ := q
        dsimp only
        cases h2 : processWhats e n3 l2 with
        | error err => rfl
        | ok r => obtain ⟨b, n4⟩ := r; rfl

/-- C9: a WHAT expression evaluating to a single mapping (a LIMIT-1
collapsed subquery result) is processed exactly as the one-element sequence
containing that mapping: both are dispatched to the same subquery-result
handler (`processOther`) with the same table-less key, and `executeCreate`
on the whole statement is unchanged by the substitution. -/
theorem executeCreate_map_as_singleton (e : Executor) (ctx : Ctx) (n : Nat)
    (pre post : List CreateExpr) (f g : CreateExpr)
    (fs : List (String × GoValue))
    (hf : f ctx = .ok (.mapv fs)) (hg : g ctx = .ok (.seq [.obj fs])) :
    dispatchWhat e n (.mapv fs) = dispatchWhat e n (.seq [.obj fs]) ∧
      executeCreate e ctx ⟨pre ++ f :: post⟩ = executeCreate e ctx ⟨pre ++ g :: post⟩ := by
  refine ⟨rfl, ?_⟩
  simp only [executeCreate]
  cases hacc : e.accessErr with
  | some err => rfl
  | none =>
    rw [fetchWhats_append ctx pre (f :: post), fetchWhats_append ctx pre (g :: post)]
    cases h1 : fetchWhats ctx pre with
    | error err => rfl
    | ok a =>
      simp only [fetchWhats, hf, hg]
      cases h2 : fetchWhats ctx post with
      | error err => rfl
      | ok b =>
        dsimp only
        rw [processWhats_append e 0 a (WhatVal.mapv fs :: b),
          processWhats_append e 0 a (WhatVal.seq [GoValue.obj fs] :: b)]
        cases h3 : processWhats e 0 a with
        | error err => rfl
        | ok p =>
          obtain ⟨acts, n1⟩ := p
          dsimp only
          have hsame : processWhats e n1 (WhatVal.mapv fs :: b) =
              processWhats e n1 (WhatVal.seq [GoValue.obj fs] :: b) := rfl
          rw [hsame]

/-- Witness for C9 at a concrete statement: the single-mapping WHAT and the
singleton-sequence WHAT dispatch identically and yield identical statement
results. -/
theorem executeCreate_map_as_singleton_witness :
    dispatchWhat exeEmpty 0 (.mapv fsLimitOne) =
        dispatchWhat exeEmpty 0 (.seq [.obj fsLimitOne]) ∧
      executeCreate exeEmpty ctxRoot { what := [exprMap] } =
        executeCreate exeEmpty ctxRoot { what := [exprSeqOfMap] } :=
  executeCreate_map_as_singleton exeEmpty ctxRoot 0 [] [] exprMap exprSeqOfMap
    fsLimitOne rfl rfl

/-- C10: for every `fetchCreate` invocation with a nil calling document, no
`$parent`/`$parents` bindings are added: the context handed to
`executeCreate` keeps the variable-scope portion (`ctxKeySubs`) unchanged,
with only the nesting-depth accounting applied, and `fetchCreate` is
exactly the delegation to `executeCreate` under that context. -/
theorem fetchCreate_nil_doc (e : Executor) (ctx : Ctx) (stm : CreateStatement) :
    fetchCreateFrame ctx none = { depth := ctx.depth + 1, subs := ctx.subs } ∧
      fetchCreate e ctx stm none =
        fetchFinish (executeCreate e { depth := ctx.depth + 1, subs := ctx.subs } stm) :=
  ⟨rfl, rfl⟩
